import Mathlib

/-!
Shallow embedding of the YouTube downloader web client
(src/frontend/src/App.tsx and the two prototype components in
src/unnamed/part_001), together with theorems settling the frozen claims.

Each React handler is embedded as a pure function from the component state
and the outcome of its single `fetch` call to the new component state, the
list of HTTP requests the handler issued, and (for the stream-back download
handler) the file it saved.  JavaScript `x || y` string coalescing and the
regex `/filename="(.+)"/` are modelled explicitly below.
-/

/-- `VideoFormat` interface of App.tsx (lines 4-12). `filesize?: number` is
modelled as `Option Nat` (a byte count). -/
structure VideoFormat where
  format_id : String
  ext : String
  resolution : String
  filesize : Option Nat
  note : String
  has_video : Bool
  has_audio : Bool
deriving DecidableEq

/-- `VideoInfo` interface of App.tsx (lines 14-19). `duration?: number` is
modelled as `Option Nat` (seconds). -/
structure VideoInfo where
  title : String
  thumbnail : Option String
  duration : Option Nat
  formats : List VideoFormat
deriving DecidableEq

/-- The `useState` cells of the `App` component (App.tsx lines 22-27). -/
structure AppState where
  url : String
  loading : Bool
  message : String
  error : String
  videoInfo : Option VideoInfo
  selectedFormat : String
deriving DecidableEq

/-- Body of an HTTP request issued by one of the components. -/
inductive ReqBody where
  | formats (url : String)
  | download (url : String) (format_id : String)
  | apiDownload (url : String)
deriving DecidableEq

/-- A POST request issued by a handler: the fetch endpoint string exactly as
it appears in the source, and the JSON body. -/
structure Request where
  endpoint : String
  body : ReqBody
deriving DecidableEq

/-- JavaScript `s || fallback` for a string `s`: the empty string is falsy. -/
def jsOrString (s fallback : String) : String :=
  if s = "" then fallback else s

/-- JavaScript `x || fallback` where `x` is a string that may be
null/undefined (modelled as `Option String`). -/
def jsOptOr (m : Option String) (fallback : String) : String :=
  match m with
  | none => fallback
  | some s => jsOrString s fallback

/-- JavaScript coercion of a possibly-undefined string to the stored string
state (undefined stored; rendered the same as the empty string). -/
def jsOptStr : Option String → String
  | none => ""
  | some s => s

/-! ### The regex `/filename="(.+)"/` of App.tsx line 81

`contentDisposition.match(/filename="(.+)"/)` scans for the leftmost
position at which the whole pattern matches; at a given position the
literal `filename="` must match, then `(.+)` greedily captures a nonempty
run of non-newline characters, backtracking so that a closing `"` follows.
Hence at a given occurrence of `filename="`, the capture ends at the
largest later index holding `"` such that the capture is nonempty and
newline-free; if no such index exists the scan resumes one character to
the right. -/

/-- The literal part `filename="` of the regex. -/
def filenamePat : List Char :=
  ['f', 'i', 'l', 'e', 'n', 'a', 'm', 'e', '=', '"']

/-- `dropPrefixChars p l` returns `some rest` when `l = p ++ rest`,
scanning character by character. -/
def dropPrefixChars : List Char → List Char → Option (List Char)
  | [], l => some l
  | _ :: _, [] => none
  | p :: ps, c :: cs => if c = p then dropPrefixChars ps cs else none

/-- Greedy search for the capture of `(.+)"` in the REVERSED tail: the first
`"` from the right whose preceding characters (the reversed capture) are
nonempty and newline-free wins; otherwise backtrack to the next `"`. -/
def findCapRev : List Char → Option (List Char)
  | [] => none
  | c :: cs =>
    if c = '"' ∧ cs ≠ [] ∧ '\n' ∉ cs then some cs else findCapRev cs

/-- `s.match(/filename="(.+)"/)` restricted to the first capture group:
try the pattern at each position from the left, with the greedy
backtracking capture of `findCapRev` at each occurrence of the literal. -/
def jsFilenameMatch : List Char → Option (List Char)
  | [] => none
  | c :: cs =>
    match dropPrefixChars filenamePat (c :: cs) with
    | some rest =>
      match findCapRev rest.reverse with
      | some capRev => some capRev.reverse
      | none => jsFilenameMatch cs
    | none => jsFilenameMatch cs

/-- App.tsx lines 80-82: the filename under which the download is saved.
A null/absent or empty (falsy) `Content-Disposition` header, or one the
regex does not match, yields the fallback `video.mp4`; otherwise the first
capture group of the regex. -/
def contentDispositionFilename (cd : Option String) : String :=
  match cd with
  | none => "video.mp4"
  | some h =>
    if h = "" then "video.mp4"
    else
      match jsFilenameMatch h.data with
      | none => "video.mp4"
      | some cap => String.mk cap

/-! ### The `App` component handlers (App.tsx) -/

/-- Outcome of the `fetch` in `handleUrlSubmit`: either the fetch (or a
subsequent `await`) threw an error carrying an optional message, or a
response arrived with an `ok` flag and a JSON body that parses to a
`VideoInfo` or fails with an optional error message. -/
inductive FormatsOutcome where
  | fetchThrow (msg : Option String)
  | response (ok : Bool) (json : Except (Option String) VideoInfo)

/-- Outcome of the `fetch` in `handleDownload`: a thrown error, or a
response with an `ok` flag, an optional `Content-Disposition` header, and
the body bytes. -/
inductive DownloadOutcome where
  | fetchThrow (msg : Option String)
  | response (ok : Bool) (contentDisposition : Option String) (blob : List Nat)

/-- A file handed to the browser for saving (the synthetic `<a download>`
click of App.tsx lines 85-93). -/
structure SavedFile where
  filename : String
  bytes : List Nat
deriving DecidableEq

/-- State updates performed by `handleUrlSubmit` before its fetch
(App.tsx lines 31-34). -/
def urlSubmitStart (s : AppState) : AppState :=
  { s with loading := true, message := "", error := "", videoInfo := none }

/-- `handleUrlSubmit` (App.tsx lines 29-57): issues `POST /formats` with
body `{url}`; a non-ok response throws the fixed message, a thrown error
surfaces `err.message || 'Something went wrong'`, and a parsed body is
stored as `videoInfo` with `selectedFormat` set to
`data.formats[0]?.format_id || ''`.  Returns the new state and the
requests issued. -/
def handleUrlSubmit (s : AppState) (o : FormatsOutcome) : AppState × List Request :=
  let s1 := urlSubmitStart s
  let req : Request := ⟨"http://localhost:8000/formats", .formats s1.url⟩
  match o with
  | .fetchThrow m =>
    ({ s1 with error := jsOptOr m "Something went wrong", loading := false }, [req])
  | .response ok json =>
    if ok then
      match json with
      | .error m =>
        ({ s1 with error := jsOptOr m "Something went wrong", loading := false }, [req])
      | .ok d =>
        ({ s1 with
            videoInfo := some d,
            selectedFormat := jsOptOr (d.formats.head?.map (fun f => f.format_id)) "",
            loading := false }, [req])
    else
      ({ s1 with error := "Failed to get video information", loading := false }, [req])

/-- State updates performed by `handleDownload` before its fetch
(App.tsx lines 60-61): note that the prior `error` is left in place. -/
def downloadStart (s : AppState) : AppState :=
  { s with loading := true, message := "Starting download..." }

/-- `handleDownload` (App.tsx lines 59-101): issues `POST /download` with
body `{url, format_id}`; on an ok response it saves the blob under the
`contentDispositionFilename` and reports completion, otherwise it surfaces
an error.  Returns the new state, the requests issued, and the saved
file. -/
def handleDownload (s : AppState) (o : DownloadOutcome) :
    AppState × List Request × Option SavedFile :=
  let s1 := downloadStart s
  let req : Request := ⟨"http://localhost:8000/download", .download s1.url s1.selectedFormat⟩
  match o with
  | .fetchThrow m =>
    ({ s1 with error := jsOptOr m "Download failed", loading := false }, [req], none)
  | .response ok cd blob =>
    if ok then
      let filename := contentDispositionFilename cd
      ({ s1 with message := "Download complete: " ++ filename, loading := false },
        [req], some ⟨filename, blob⟩)
    else
      ({ s1 with error := "Download failed", loading := false }, [req], none)

/-- Models the browser constraint validation on the URL input of the `App`
form (App.tsx lines 108-116, `type="url" required`): submission is blocked
before the handler runs when the value is empty (`required`) or fails the
browser URL validity check (`type="url"`), the latter abstracted as the
predicate `urlValid`. -/
def appUrlFormSubmit (urlValid : String → Bool) (s : AppState) (o : FormatsOutcome) :
    AppState × List Request :=
  if s.url = "" ∨ urlValid s.url = false then (s, [])
  else handleUrlSubmit s o

/-- A click on the Download button (App.tsx lines 143-149): the button is
rendered only when `videoInfo` is present and is disabled while `loading`;
no other condition guards `handleDownload`. -/
def appDownloadClick (s : AppState) (o : DownloadOutcome) :
    AppState × List Request × Option SavedFile :=
  if s.loading = true ∨ s.videoInfo = none then (s, [], none)
  else handleDownload s o

/-! ### The two prototype components of src/unnamed/part_001 -/

/-- The `useState` cells shared by the `YouTubeDownloader` and
`YouTubeDownLoader` prototypes (part_001 lines 8-12 and 120-124). -/
structure YtdlState where
  url : String
  loading : Bool
  error : String
  downloadLink : String
deriving DecidableEq

/-- JSON body of a `/api/download` response: an optional `downloadUrl`
(read on the success path) and an optional `message` (read by the first
prototype on the error path). -/
structure ApiBody where
  downloadUrl : Option String
  message : Option String
deriving DecidableEq

/-- Outcome of the `fetch` in the prototypes' `handleSubmit`: a thrown
error, or a response with an `ok` flag and a JSON body that parses to an
`ApiBody` or fails with an optional error message. -/
inductive ApiOutcome where
  | fetchThrow (msg : Option String)
  | response (ok : Bool) (json : Except (Option String) ApiBody)

/-- State updates performed by both prototypes' `handleSubmit` before the
fetch (part_001 lines 15-18 and 127-130). -/
def ytdlStart (s : YtdlState) : YtdlState :=
  { s with loading := true, error := "", downloadLink := "" }

/-- `handleSubmit` of the first prototype, `YouTubeDownloader`
(part_001 lines 14-41): issues `POST /api/download` with body `{url}`,
parses the JSON body BEFORE checking `ok`, throws
`data.message || 'Failed to download video'` on a non-ok response, and on
success stores `data.downloadUrl` as the link to present. -/
def handleSubmitA (s : YtdlState) (o : ApiOutcome) : YtdlState × List Request :=
  let s1 := ytdlStart s
  let req : Request := ⟨"/api/download", .apiDownload s1.url⟩
  match o with
  | .fetchThrow m => ({ s1 with error := jsOptStr m, loading := false }, [req])
  | .response ok json =>
    match json with
    | .error m => ({ s1 with error := jsOptStr m, loading := false }, [req])
    | .ok data =>
      if ok then
        ({ s1 with downloadLink := jsOptStr data.downloadUrl, loading := false }, [req])
      else
        ({ s1 with
            error := jsOptOr data.message "Failed to download video",
            loading := false }, [req])

/-- `handleSubmit` of the second prototype, `YouTubeDownLoader`
(part_001 lines 126-152): issues `POST /api/download` (absolute URL) with
body `{url}`, throws the fixed message on a non-ok response, parses the
JSON body only afterwards, and on success stores `data.downloadUrl` as
the link to present. -/
def handleSubmitB (s : YtdlState) (o : ApiOutcome) : YtdlState × List Request :=
  let s1 := ytdlStart s
  let req : Request := ⟨"http://localhost:8000/api/download", .apiDownload s1.url⟩
  match o with
  | .fetchThrow m => ({ s1 with error := jsOptStr m, loading := false }, [req])
  | .response ok json =>
    if ok then
      match json with
      | .error m => ({ s1 with error := jsOptStr m, loading := false }, [req])
      | .ok data =>
        ({ s1 with downloadLink := jsOptStr data.downloadUrl, loading := false }, [req])
    else
      ({ s1 with error := "Failed to download video", loading := false }, [req])

/-- Modelled from the spec: the backend format-lookup service is not under
src/ (only the README references it); per the spec, when the external
extraction tool succeeds the `POST /formats` response carries a non-empty
format list. -/
def specBackendSuccess (d : VideoInfo) : Prop :=
  d.formats ≠ []

instance (d : VideoInfo) : Decidable (specBackendSuccess d) := by
  unfold specBackendSuccess
  infer_instance

/-- Classification of the `handleUrlSubmit` outcomes that take an error
path: a thrown fetch error, a non-ok response, or a JSON parse failure. -/
def FormatsOutcome.fails : FormatsOutcome → Bool
  | .fetchThrow _ => true
  | .response ok json =>
    !ok || (match json with | .error _ => true | .ok _ => false)

/-! ### Lemmas about the regex model -/

theorem dropPrefixChars_append (p l : List Char) :
    dropPrefixChars p (p ++ l) = some l := by
  induction p with
  | nil => rfl
  | cons c cs ih => simp [dropPrefixChars, ih]

theorem jsFilenameMatch_skip (pre l : List Char) (h : 'f' ∉ pre) :
    jsFilenameMatch (pre ++ l) = jsFilenameMatch l := by
  induction pre with
  | nil => rfl
  | cons c cs ih =>
    rw [List.mem_cons, not_or] at h
    rw [List.cons_append, jsFilenameMatch]
    have hc : ¬ (c = 'f') := fun hcc => h.1 hcc.symm
    simp only [filenamePat, dropPrefixChars, if_neg hc]
    exact ih h.2

theorem jsFilenameMatch_wellformed (name : List Char) (h1 : name ≠ [])
    (h2 : '\n' ∉ name) :
    jsFilenameMatch (filenamePat ++ (name ++ ['"'])) = some name := by
  have e : filenamePat ++ (name ++ ['"'])
      = 'f' :: (['i', 'l', 'e', 'n', 'a', 'm', 'e', '=', '"'] ++ (name ++ ['"'])) := rfl
  rw [e, jsFilenameMatch]
  have hdrop : dropPrefixChars filenamePat
      ('f' :: (['i', 'l', 'e', 'n', 'a', 'm', 'e', '=', '"'] ++ (name ++ ['"'])))
      = some (name ++ ['"']) := dropPrefixChars_append filenamePat (name ++ ['"'])
  have hrev : (name ++ ['"']).reverse = '"' :: name.reverse := by
    simp
  simp only [hdrop, hrev, findCapRev]
  rw [if_pos ⟨trivial, by simpa using h1, by simpa using h2⟩]
  simp

theorem jsFilenameMatch_header (name : String) (h1 : name.data ≠ [])
    (h2 : '\n' ∉ name.data) :
    jsFilenameMatch ("attachment; filename=\"" ++ name ++ "\"").data = some name.data := by
  have e : ("attachment; filename=\"" ++ name ++ "\"").data
      = "attachment; ".data ++ (filenamePat ++ (name.data ++ ['"'])) := by
    simp [filenamePat]
  rw [e, jsFilenameMatch_skip _ _ (by decide),
    jsFilenameMatch_wellformed name.data h1 h2]

theorem contentDispositionFilename_wellformed (name : String) (h1 : name.data ≠ [])
    (h2 : '\n' ∉ name.data) :
    contentDispositionFilename (some ("attachment; filename=\"" ++ name ++ "\"")) = name := by
  have hne : ¬ ("attachment; filename=\"" ++ name ++ "\"" = "") := by
    intro h
    have hd : ("attachment; filename=\"" ++ name ++ "\"").data = [] := by
      rw [h]
    simp [String.data_append] at hd
  simp only [contentDispositionFilename]
  rw [if_neg hne, jsFilenameMatch_header name h1 h2]

/-! ### Claim theorems -/

/-- C1: for every download request issued after the user selects a format
identifier present in the returned format list, the handler issues exactly
one `POST /download` request with body `{url, format_id}`, and the bytes
received are saved under the filename carried in the response's
`Content-Disposition` header. -/
theorem c1_download_saves_header_filename (s : AppState) (vi : VideoInfo)
    (hvi : s.videoInfo = some vi)
    (hsel : s.selectedFormat ∈ vi.formats.map (fun f => f.format_id))
    (hload : s.loading = false)
    (name : String) (bytes : List Nat)
    (h1 : name.data ≠ []) (h2 : '\n' ∉ name.data) :
    (appDownloadClick s
        (.response true (some ("attachment; filename=\"" ++ name ++ "\"")) bytes)).2.1
      = [⟨"http://localhost:8000/download", .download s.url s.selectedFormat⟩]
    ∧ (appDownloadClick s
        (.response true (some ("attachment; filename=\"" ++ name ++ "\"")) bytes)).2.2
      = some ⟨name, bytes⟩ := by
  simp [appDownloadClick, hvi, hload, handleDownload, downloadStart,
    contentDispositionFilename_wellformed name h1 h2]

/-- C4: the format-lookup handler always issues exactly one
`POST http://localhost:8000/formats` request whose body is `{url}` taken
from the current state, and on an ok response whose body parses it stores
the parsed `VideoInfo` unmodified. -/
theorem c4_formats_contract (s : AppState) (o : FormatsOutcome) (d : VideoInfo) :
    (handleUrlSubmit s o).2 = [⟨"http://localhost:8000/formats", .formats s.url⟩]
    ∧ (handleUrlSubmit s (.response true (.ok d))).1.videoInfo = some d := by
  constructor
  · cases o with
    | fetchThrow m => rfl
    | response ok json => cases ok <;> cases json <;> rfl
  · rfl

/-- C9: after a successful format-lookup response the selected format is
initialised to the `format_id` of the first element of the returned list
(and to the empty string when the list is empty), and is never an
identifier outside the returned list. -/
theorem c9_selected_format_init (s : AppState) (d : VideoInfo) :
    (handleUrlSubmit s (.response true (.ok d))).1.selectedFormat
      = (match d.formats with
         | [] => ""
         | f :: _ => f.format_id)
    ∧ ((d.formats = []
          ∧ (handleUrlSubmit s (.response true (.ok d))).1.selectedFormat = "")
        ∨ (handleUrlSubmit s (.response true (.ok d))).1.selectedFormat
            ∈ d.formats.map (fun f => f.format_id)) := by
  cases hf : d.formats with
  | nil =>
    constructor
    · simp [handleUrlSubmit, hf, jsOptOr]
    · exact Or.inl ⟨rfl, by simp [handleUrlSubmit, hf, jsOptOr]⟩
  | cons f fs =>
    by_cases hid : f.format_id = ""
    · constructor
      · simp [handleUrlSubmit, hf, jsOptOr, jsOrString, hid]
      · exact Or.inr (by simp [handleUrlSubmit, hf, jsOptOr, jsOrString, hid])
    · constructor
      · simp [handleUrlSubmit, hf, jsOptOr, jsOrString, hid]
      · exact Or.inr (by simp [handleUrlSubmit, hf, jsOptOr, jsOrString, hid])

/-- C8: on an ok download response, the saved filename is the fixed
fallback `video.mp4` when the `Content-Disposition` header is absent or
the regex `/filename="(.+)"/` does not match it, and otherwise the first
capture group of that regex; the saved bytes are the response blob. -/
theorem c8_filename_fallback (s : AppState) (b : List Nat) (cd : Option String) :
    (handleDownload s (.response true cd b)).2.2
      = some ⟨(match cd with
               | none => "video.mp4"
               | some hdr =>
                 match jsFilenameMatch hdr.data with
                 | none => "video.mp4"
                 | some cap => String.mk cap), b⟩ := by
  cases cd with
  | none => rfl
  | some hdr =>
    by_cases h : hdr = ""
    · subst h
      rfl
    · simp [handleDownload, downloadStart, contentDispositionFilename, h]

/-- C3 (amended): every failure path of each of the four handlers sets a
single unstructured error string, and each handler invocation issues
exactly one request, so no retry occurs.  The string is not one fixed
string per handler: the App handlers surface their fixed message on a
non-ok status and the thrown error's own message — with a fixed fallback
when it is absent or empty — on a thrown fetch or JSON-parsing error;
prototype A surfaces the server-supplied `data.message` with the fixed
fallback on a non-ok status, prototype B its fixed message, and both
prototypes' catch surfaces the error's own message with no fallback at
all (possibly empty). -/
theorem c3_error_paths (s : AppState) (m jm : Option String)
    (j : Except (Option String) VideoInfo) (cd : Option String) (b : List Nat)
    (o : FormatsOutcome) (o2 : DownloadOutcome)
    (t : YtdlState) (d : ApiBody) (j2 : Except (Option String) ApiBody)
    (okb : Bool) (oa : ApiOutcome) :
    (handleUrlSubmit s (.fetchThrow m)).1.error = jsOptOr m "Something went wrong"
    ∧ (handleUrlSubmit s (.response false j)).1.error = "Failed to get video information"
    ∧ (handleUrlSubmit s (.response true (.error jm))).1.error
        = jsOptOr jm "Something went wrong"
    ∧ (handleDownload s (.fetchThrow m)).1.error = jsOptOr m "Download failed"
    ∧ (handleDownload s (.response false cd b)).1.error = "Download failed"
    ∧ (handleSubmitA t (.fetchThrow m)).1.error = jsOptStr m
    ∧ (handleSubmitA t (.response okb (.error jm))).1.error = jsOptStr jm
    ∧ (handleSubmitA t (.response false (.ok d))).1.error
        = jsOptOr d.message "Failed to download video"
    ∧ (handleSubmitB t (.fetchThrow m)).1.error = jsOptStr m
    ∧ (handleSubmitB t (.response false j2)).1.error = "Failed to download video"
    ∧ (handleSubmitB t (.response true (.error jm))).1.error = jsOptStr jm
    ∧ (handleUrlSubmit s o).2.length = 1
    ∧ (handleDownload s o2).2.1.length = 1
    ∧ (handleSubmitA t oa).2.length = 1
    ∧ (handleSubmitB t oa).2.length = 1 := by
  refine ⟨rfl, rfl, rfl, rfl, rfl, rfl, ?_, rfl, rfl, rfl, rfl, ?_, ?_, ?_, ?_⟩
  · cases okb <;> rfl
  · cases o with
    | fetchThrow m => rfl
    | response ok json => cases ok <;> cases json <;> rfl
  · cases o2 with
    | fetchThrow m => rfl
    | response ok cd2 b2 => cases ok <;> rfl
  · cases oa with
    | fetchThrow m => rfl
    | response ok json => cases ok <;> cases json <;> rfl
  · cases oa with
    | fetchThrow m => rfl
    | response ok json => cases ok <;> cases json <;> rfl

/-- C2 counterexample: with an empty URL in state, a click on the Download
button still transmits a `POST /download` request carrying the empty URL —
the download submission performs no client-side URL validation. -/
theorem c2_counterexample :
    (appDownloadClick
        { url := "",
          loading := false,
          message := "",
          error := "",
          videoInfo := some
            { title := "t",
              thumbnail := none,
              duration := none,
              formats := [{ format_id := "18",
                            ext := "mp4",
                            resolution := "360p",
                            filesize := none,
                            note := "",
                            has_video := true,
                            has_audio := true }] },
          selectedFormat := "18" }
        (.fetchThrow none)).2.1
      = [⟨"http://localhost:8000/download", .download "" "18"⟩] := by
  rfl

/-- C2 (amended): an empty or browser-invalid URL blocks the format-lookup
form submission before any fetch, but the download click transmits its
request whenever the button is enabled, with whatever URL is in state. -/
theorem c2_amended (urlValid : String → Bool) (s : AppState) (o : FormatsOutcome)
    (t : AppState) (o2 : DownloadOutcome) (vi : VideoInfo)
    (hs : s.url = "" ∨ urlValid s.url = false)
    (h1 : t.loading = false) (h2 : t.videoInfo = some vi) :
    (appUrlFormSubmit urlValid s o).2 = []
    ∧ (appDownloadClick t o2).2.1
        = [⟨"http://localhost:8000/download", .download t.url t.selectedFormat⟩] := by
  constructor
  · simp [appUrlFormSubmit, hs]
  · cases o2 with
    | fetchThrow m => simp [appDownloadClick, h1, h2, handleDownload, downloadStart]
    | response ok cd b =>
      cases ok <;> simp [appDownloadClick, h1, h2, handleDownload, downloadStart]

/-- C6 counterexample: with both the URL and the selected format empty, a
click on the Download button still transmits the request — no presence
validation guards the download request. -/
theorem c6_counterexample :
    (appDownloadClick
        { url := "",
          loading := false,
          message := "",
          error := "",
          videoInfo := some
            { title := "v",
              thumbnail := none,
              duration := none,
              formats := [] },
          selectedFormat := "" }
        (.response true none [])).2.1
      = [⟨"http://localhost:8000/download", .download "" ""⟩] := by
  rfl

/-- C6 (amended): download requests undergo no presence validation:
whenever the Download button is enabled, the request is transmitted with
the current URL and selected format identifier as they are, even when
either is empty. -/
theorem c6_amended (t : AppState) (o : DownloadOutcome) (vi : VideoInfo)
    (h1 : t.loading = false) (h2 : t.videoInfo = some vi) :
    (appDownloadClick t o).2.1
      = [⟨"http://localhost:8000/download", .download t.url t.selectedFormat⟩] := by
  cases o with
  | fetchThrow m => simp [appDownloadClick, h1, h2, handleDownload, downloadStart]
  | response ok cd b =>
    cases ok <;> simp [appDownloadClick, h1, h2, handleDownload, downloadStart]

/-- Helper: JavaScript `x || fallback` with a nonempty fallback is never
the empty string. -/
theorem jsOptOr_ne_empty (m : Option String) (fb : String) (h : fb ≠ "") :
    jsOptOr m fb ≠ "" := by
  cases m with
  | none => simpa [jsOptOr]
  | some x =>
    by_cases hx : x = "" <;> simp [jsOptOr, jsOrString, hx, h]

/-- C5: every submission in the two alternate-variant prototypes sends a
single `POST /api/download` request with body `{url}`, on success stores
`downloadUrl` read from the JSON response as the link presented to the
user, and neither prototype ever issues the stream-back `/download`
request. -/
theorem c5_api_download_variants (s : YtdlState) (o : ApiOutcome) (d : ApiBody) :
    (handleSubmitA s o).2 = [⟨"/api/download", .apiDownload s.url⟩]
    ∧ (handleSubmitB s o).2 = [⟨"http://localhost:8000/api/download", .apiDownload s.url⟩]
    ∧ (handleSubmitA s (.response true (.ok d))).1.downloadLink = jsOptStr d.downloadUrl
    ∧ (handleSubmitB s (.response true (.ok d))).1.downloadLink = jsOptStr d.downloadUrl
    ∧ ((handleSubmitA s o).2 ++ (handleSubmitB s o).2).filter
        (fun r => r.endpoint == "http://localhost:8000/download" || r.endpoint == "/download")
      = [] := by
  have ha : (handleSubmitA s o).2 = [⟨"/api/download", .apiDownload s.url⟩] := by
    cases o with
    | fetchThrow m => rfl
    | response ok json => cases ok <;> cases json <;> rfl
  have hb : (handleSubmitB s o).2
      = [⟨"http://localhost:8000/api/download", .apiDownload s.url⟩] := by
    cases o with
    | fetchThrow m => rfl
    | response ok json => cases ok <;> cases json <;> rfl
  refine ⟨ha, hb, rfl, rfl, ?_⟩
  rw [ha, hb]
  rfl

/-- C7: for a well-formed URL accepted by the browser form validation, a
successful format-lookup response (with the backend success shape, which
per the spec carries a non-empty format list) leaves the UI holding that
non-empty format list, and every failing outcome leaves a nonempty
user-visible error and no format list. -/
theorem c7_format_lookup (urlValid : String → Bool) (s : AppState)
    (hu : ¬ (s.url = "")) (hv : urlValid s.url = true)
    (d : VideoInfo) (hd : specBackendSuccess d)
    (o : FormatsOutcome) (ho : o.fails = true) :
    ((appUrlFormSubmit urlValid s (.response true (.ok d))).1.videoInfo = some d
      ∧ d.formats ≠ [])
    ∧ ((appUrlFormSubmit urlValid s o).1.error ≠ ""
      ∧ (appUrlFormSubmit urlValid s o).1.videoInfo = none) := by
  have hcond : ¬ (s.url = "" ∨ urlValid s.url = false) := by
    rintro (h | h)
    · exact hu h
    · rw [hv] at h
      exact absurd h (by decide)
  constructor
  · constructor
    · simp [appUrlFormSubmit, if_neg hcond, handleUrlSubmit, urlSubmitStart]
    · exact hd
  · cases o with
    | fetchThrow m =>
      refine ⟨?_, ?_⟩
      · simpa [appUrlFormSubmit, if_neg hcond, handleUrlSubmit, urlSubmitStart] using
          jsOptOr_ne_empty m "Something went wrong" (by decide)
      · simp [appUrlFormSubmit, if_neg hcond, handleUrlSubmit, urlSubmitStart]
    | response ok json =>
      cases ok with
      | false =>
        refine ⟨?_, ?_⟩
        · cases json <;>
            simp [appUrlFormSubmit, if_neg hcond, handleUrlSubmit, urlSubmitStart]
        · cases json <;>
            simp [appUrlFormSubmit, if_neg hcond, handleUrlSubmit, urlSubmitStart]
      | true =>
        cases json with
        | error jm =>
          refine ⟨?_, ?_⟩
          · simpa [appUrlFormSubmit, if_neg hcond, handleUrlSubmit, urlSubmitStart] using
              jsOptOr_ne_empty jm "Something went wrong" (by decide)
          · simp [appUrlFormSubmit, if_neg hcond, handleUrlSubmit, urlSubmitStart]
        | ok d2 =>
          exact absurd ho (by simp [FormatsOutcome.fails])

/-- C10 counterexample: on a successful download, a prior error left in
state from an earlier request is NOT cleared by `handleDownload` — the
handler never resets `error`. -/
theorem c10_counterexample :
    (handleDownload
        { url := "u",
          loading := false,
          message := "",
          error := "previous error",
          videoInfo := some
            { title := "t",
              thumbnail := none,
              duration := none,
              formats := [] },
          selectedFormat := "f" }
        (.response true none [])).1.error = "previous error"
    ∧ ("previous error" : String) ≠ "" := by
  exact ⟨rfl, by decide⟩

/-- C10 (amended): `handleUrlSubmit` clears message, error and the previous
`VideoInfo` before its fetch, `handleDownload` sets the message to
`Starting download...` but leaves the prior error in place, the part_001
handlers clear error and downloadLink; every handler sets the loading flag
at entry and resets it to false on every exit path, re-enabling the
buttons after each request completes. -/
theorem c10_state_discipline (s : AppState) (o : FormatsOutcome)
    (o2 : DownloadOutcome) (t : YtdlState) (oa : ApiOutcome) :
    (urlSubmitStart s).message = ""
    ∧ (urlSubmitStart s).error = ""
    ∧ (urlSubmitStart s).videoInfo = none
    ∧ (urlSubmitStart s).loading = true
    ∧ (downloadStart s).message = "Starting download..."
    ∧ (downloadStart s).error = s.error
    ∧ (downloadStart s).loading = true
    ∧ (ytdlStart t).error = ""
    ∧ (ytdlStart t).downloadLink = ""
    ∧ (ytdlStart t).loading = true
    ∧ (handleUrlSubmit s o).1.loading = false
    ∧ (handleDownload s o2).1.loading = false
    ∧ (handleSubmitA t oa).1.loading = false
    ∧ (handleSubmitB t oa).1.loading = false := by
  refine ⟨rfl, rfl, rfl, rfl, rfl, rfl, rfl, rfl, rfl, rfl, ?_, ?_, ?_, ?_⟩
  · cases o with
    | fetchThrow m => rfl
    | response ok json => cases ok <;> cases json <;> rfl
  · cases o2 with
    | fetchThrow m => rfl
    | response ok cd b => cases ok <;> rfl
  · cases oa with
    | fetchThrow m => rfl
    | response ok json => cases ok <;> cases json <;> rfl
  · cases oa with
    | fetchThrow m => rfl
    | response ok json => cases ok <;> cases json <;> rfl

/-! ### Witnesses -/

/-- Witness for C1 at a concrete state, header filename and byte list. -/
theorem c1_download_saves_header_filename_witness :
    ("18" : String) ∈ ([⟨"18", "mp4", "360p", none, "", true, true⟩] :
        List VideoFormat).map (fun f => f.format_id)
    ∧ ("clip.mp4" : String).data ≠ []
    ∧ '\n' ∉ ("clip.mp4" : String).data
    ∧ (appDownloadClick
        { url := "https://youtu.be/abc",
          loading := false,
          message := "",
          error := "",
          videoInfo := some
            { title := "T",
              thumbnail := none,
              duration := none,
              formats := [⟨"18", "mp4", "360p", none, "", true, true⟩] },
          selectedFormat := "18" }
        (.response true (some ("attachment; filename=\"" ++ "clip.mp4" ++ "\""))
          [7, 8, 9])).2.2
      = some ⟨"clip.mp4", [7, 8, 9]⟩ := by
  refine ⟨by decide, by decide, by decide, ?_⟩
  exact (c1_download_saves_header_filename
    { url := "https://youtu.be/abc",
      loading := false,
      message := "",
      error := "",
      videoInfo := some
        { title := "T",
          thumbnail := none,
          duration := none,
          formats := [⟨"18", "mp4", "360p", none, "", true, true⟩] },
      selectedFormat := "18" }
    { title := "T",
      thumbnail := none,
      duration := none,
      formats := [⟨"18", "mp4", "360p", none, "", true, true⟩] }
    rfl (by decide) rfl "clip.mp4" [7, 8, 9] (by decide) (by decide)).2

/-- Witness for the amended C2 at a concrete empty-URL state. -/
theorem c2_amended_witness :
    (("" : String) = "" ∨ (fun _ : String => true) "" = false)
    ∧ ({ url := "",
         loading := false,
         message := "",
         error := "",
         videoInfo := some { title := "v", thumbnail := none, duration := none, formats := [] },
         selectedFormat := "f" } : AppState).loading = false
    ∧ ((appUrlFormSubmit (fun _ => true)
          { url := "",
            loading := false,
            message := "",
            error := "",
            videoInfo := none,
            selectedFormat := "" }
          (.fetchThrow none)).2 = []
      ∧ (appDownloadClick
          { url := "",
            loading := false,
            message := "",
            error := "",
            videoInfo := some { title := "v", thumbnail := none, duration := none, formats := [] },
            selectedFormat := "f" }
          (.fetchThrow none)).2.1
        = [⟨"http://localhost:8000/download", .download "" "f"⟩]) := by
  refine ⟨Or.inl rfl, rfl, ?_⟩
  exact c2_amended (fun _ => true)
    { url := "",
      loading := false,
      message := "",
      error := "",
      videoInfo := none,
      selectedFormat := "" }
    (.fetchThrow none)
    { url := "",
      loading := false,
      message := "",
      error := "",
      videoInfo := some { title := "v", thumbnail := none, duration := none, formats := [] },
      selectedFormat := "f" }
    (.fetchThrow none)
    { title := "v", thumbnail := none, duration := none, formats := [] }
    (Or.inl rfl) rfl rfl

/-- Witness for the amended C6 at a concrete state with both fields empty. -/
theorem c6_amended_witness :
    ({ url := "",
       loading := false,
       message := "",
       error := "",
       videoInfo := some { title := "v", thumbnail := none, duration := none, formats := [] },
       selectedFormat := "" } : AppState).loading = false
    ∧ (appDownloadClick
        { url := "",
          loading := false,
          message := "",
          error := "",
          videoInfo := some { title := "v", thumbnail := none, duration := none, formats := [] },
          selectedFormat := "" }
        (.response true none [])).2.1
      = [⟨"http://localhost:8000/download", .download "" ""⟩] := by
  refine ⟨rfl, ?_⟩
  exact c6_amended
    { url := "",
      loading := false,
      message := "",
      error := "",
      videoInfo := some { title := "v", thumbnail := none, duration := none, formats := [] },
      selectedFormat := "" }
    (.response true none [])
    { title := "v", thumbnail := none, duration := none, formats := [] }
    rfl rfl

/-- Witness for C7 at a concrete well-formed URL, a backend success
response with one format, and a failing network outcome. -/
theorem c7_format_lookup_witness :
    ¬ (("https://youtu.be/abc" : String) = "")
    ∧ specBackendSuccess
        { title := "T",
          thumbnail := none,
          duration := none,
          formats := [⟨"18", "mp4", "360p", none, "", true, true⟩] }
    ∧ (FormatsOutcome.fetchThrow none).fails = true
    ∧ (((appUrlFormSubmit (fun _ => true)
          { url := "https://youtu.be/abc",
            loading := false,
            message := "",
            error := "",
            videoInfo := none,
            selectedFormat := "" }
          (.response true (.ok
            { title := "T",
              thumbnail := none,
              duration := none,
              formats := [⟨"18", "mp4", "360p", none, "", true, true⟩] }))).1.videoInfo
        = some
            { title := "T",
              thumbnail := none,
              duration := none,
              formats := [⟨"18", "mp4", "360p", none, "", true, true⟩] }
      ∧ ({ title := "T",
           thumbnail := none,
           duration := none,
           formats := [⟨"18", "mp4", "360p", none, "", true, true⟩] } : VideoInfo).formats ≠ [])
    ∧ ((appUrlFormSubmit (fun _ => true)
          { url := "https://youtu.be/abc",
            loading := false,
            message := "",
            error := "",
            videoInfo := none,
            selectedFormat := "" }
          (.fetchThrow none)).1.error ≠ ""
      ∧ (appUrlFormSubmit (fun _ => true)
          { url := "https://youtu.be/abc",
            loading := false,
            message := "",
            error := "",
            videoInfo := none,
            selectedFormat := "" }
          (.fetchThrow none)).1.videoInfo = none)) := by
  refine ⟨by decide, by decide, rfl, ?_⟩
  exact c7_format_lookup (fun _ => true)
    { url := "https://youtu.be/abc",
      loading := false,
      message := "",
      error := "",
      videoInfo := none,
      selectedFormat := "" }
    (by decide) rfl
    { title := "T",
      thumbnail := none,
      duration := none,
      formats := [⟨"18", "mp4", "360p", none, "", true, true⟩] }
    (by decide)
    (.fetchThrow none) rfl

/-- C3 counterexample: two failures of the same format-lookup handler
surface two different error strings — a thrown network error surfaces the
error's own message while a non-ok status surfaces the handler's fixed
message — so the surfaced message is not a single fixed string per
handler. -/
theorem c3_counterexample :
    (handleUrlSubmit
        { url := "https://youtu.be/abc",
          loading := false,
          message := "",
          error := "",
          videoInfo := none,
          selectedFormat := "" }
        (.fetchThrow (some "Failed to fetch"))).1.error = "Failed to fetch"
    ∧ (handleUrlSubmit
        { url := "https://youtu.be/abc",
          loading := false,
          message := "",
          error := "",
          videoInfo := none,
          selectedFormat := "" }
        (.response false (.error none))).1.error = "Failed to get video information"
    ∧ ("Failed to fetch" : String) ≠ "Failed to get video information" := by
  exact ⟨rfl, rfl, by decide⟩
